import Mathlib

/-!
Verification of the crawler-to-md core against its natural-language
specification.  The Python sources (`crawler_to_md/export_manager.py`,
`crawler_to_md/database_manager.py`, `crawler_to_md/scraper.py`) are shallowly
embedded below: strings are modelled as `List Char` where character-level
processing matters, the SQLite tables as Lean structures over lists, and the
external collaborators (HTTP transport, HTML→Markdown conversion, `json.loads`)
as oracle parameters, matching the spec's "out of scope" interface clause.
All definitions are executable and use structural recursion only, so concrete
runs evaluate by `decide`/`rfl`.
-/

/-! ### Character-list utilities (Python string primitives)

These model the exact Python `str` operations the sources use: `split("\n")`,
`lstrip(" ")`, `rstrip(" \t")`, `strip()`, `startswith`, `endswith`,
`find`-based scanning, and substring membership (`in`). -/

/-- Python `content.split("\n")`: splits at every newline, keeping empty
pieces, so the result is always non-empty. -/
def split_lines : List Char → List (List Char)
  | [] => [[]]
  | '\n' :: rest => [] :: split_lines rest
  | c :: rest =>
    match split_lines rest with
    | [] => [[c]]
    | line :: more => (c :: line) :: more

/-- Python `suffix`-test `s.endswith(t)`, via reversed prefix testing. -/
def py_ends_with (l suffix : List Char) : Bool :=
  suffix.reverse.isPrefixOf l.reverse

/-- Python `s.rstrip(" \t")`: remove all trailing spaces and tabs. -/
def rstrip_space_tab (l : List Char) : List Char :=
  (l.reverse.dropWhile (fun c => c == ' ' || c == '\t')).reverse

/-- Python whitespace class used by `str.strip()` (ASCII part). -/
def is_py_space (c : Char) : Bool :=
  c == ' ' || c == '\t' || c == '\n' || c == '\r' || c == '\x0b' || c == '\x0c'

/-- Python `s.strip()`. -/
def py_strip (l : List Char) : List Char :=
  ((l.dropWhile is_py_space).reverse.dropWhile is_py_space).reverse

/-- Number of trailing space characters of a line (used to phrase the
spec's "ends with exactly two trailing spaces"). -/
def trailing_space_count (l : List Char) : Nat :=
  (l.reverse.takeWhile (fun c => c == ' ')).length

/-- Python membership test `pat in s`. -/
def list_contains_sub (pat : List Char) : List Char → Bool
  | [] => pat.isEmpty
  | c :: rest => pat.isPrefixOf (c :: rest) || list_contains_sub pat rest

/-- Python `s.lower()` (ASCII). -/
def py_lower (l : List Char) : List Char := l.map Char.toLower

/-- The backtick character (used by the fence tests). -/
def backtick_char : Char := Char.ofNat 96

/-! ### `ExportManager._minify_markdown` and helpers
(`crawler_to_md/export_manager.py`, lines 65-146). -/

/-- `ExportManager._line_starts_fence`: the line's content after
`lstrip(" ")` begins with three backticks or three tildes. -/
def line_starts_fence (line : List Char) : Option Char :=
  let stripped := line.dropWhile (fun c => c == ' ')
  if (("```").data).isPrefixOf stripped then some backtick_char
  else if (("~~~").data).isPrefixOf stripped then some '~'
  else none

/-- `ExportManager._line_closes_fence`. -/
def line_closes_fence (line : List Char) (fenceChar : Char) : Bool :=
  let stripped := line.dropWhile (fun c => c == ' ')
  if fenceChar == backtick_char then (("```").data).isPrefixOf stripped
  else (("~~~").data).isPrefixOf stripped

/-- `ExportManager._strip_html_comments_from_line`: the Python loop jumps
between `line.find("<!--", i)` and `line.find("-->", i)`; this is the
equivalent left-to-right character scanner.  Characters between `<!--` and
`-->` are dropped, an open comment with no `-->` drops the rest of the line
and reports the comment still open. -/
def strip_html_comments_from_line : List Char → Bool → List Char × Bool
  | [], inComment => ([], inComment)
  | '-' :: '-' :: '>' :: rest, true => strip_html_comments_from_line rest false
  | _ :: rest, true => strip_html_comments_from_line rest true
  | '<' :: '!' :: '-' :: '-' :: rest, false => strip_html_comments_from_line rest true
  | c :: rest, false =>
    let r := strip_html_comments_from_line rest false
    (c :: r.1, r.2)

/-- The trailing-whitespace step of `_minify_markdown` (export_manager.py,
lines 130-133): keep the line verbatim when it ends with two-but-not-three
trailing spaces, otherwise `rstrip(" \t")`. -/
def normalize_trailing (l : List Char) : List Char :=
  if py_ends_with l [' ', ' '] && !(py_ends_with l [' ', ' ', ' ']) then l
  else rstrip_space_tab l

/-- `re.fullmatch(r"-\x7b3,\x7d", s)`: three or more hyphens and nothing else. -/
def is_thematic_break (l : List Char) : Bool :=
  decide (3 ≤ l.length) && l.all (fun c => c == '-')

/-- The per-line loop of `_minify_markdown`, with its three pieces of state:
inside-fence flag, fence character, open-HTML-comment flag. -/
def minify_lines : List (List Char) → Bool → Option Char → Bool → List (List Char)
  | [], _, _, _ => []
  | line :: rest, true, fenceChar, inComment =>
    let closes := match fenceChar with
      | some c => line_closes_fence line c
      | none => false
    line ::
      (if closes then minify_lines rest false none inComment
       else minify_lines rest true fenceChar inComment)
  | line :: rest, false, _, inComment =>
    match line_starts_fence line with
    | some c => line :: minify_lines rest true (some c) inComment
    | none =>
      let sr := strip_html_comments_from_line line inComment
      let normalized := normalize_trailing sr.1
      if (py_strip normalized).isEmpty then minify_lines rest false none sr.2
      else if is_thematic_break (py_strip normalized) then
        minify_lines rest false none sr.2
      else normalized :: minify_lines rest false none sr.2

/-- `ExportManager._minify_markdown` on character lists: split into lines,
run the stateful loop, join with newlines, and restore a final newline when
the input had one and the result is non-empty. -/
def minify_chars (content : List Char) : List Char :=
  let hadNL := py_ends_with content ['\n']
  let out := minify_lines (split_lines content) false none false
  let minified := List.intercalate ['\n'] out
  if hadNL && !minified.isEmpty then minified ++ ['\n'] else minified

/-- `ExportManager._minify_markdown`. -/
def minify_markdown (s : String) : String :=
  String.mk (minify_chars s.data)

/-! ### `ExportManager._adjust_headers`
(`crawler_to_md/export_manager.py`, lines 25-45). -/

/-- One iteration of the `_adjust_headers` loop: the contribution of a single
input line to `new_content` (including the unconditional `+ "\n"`).  A line
starting with `#` has its first space-delimited token's length taken as the
hash count; the rebuilt line is `"\n" + "#"*min(count+inc, 6) + line[count:]
+ "\n"`. -/
def adjust_line (inc : Nat) (line : List Char) : List Char :=
  if line.head? == some '#' then
    let hashes := (line.takeWhile (fun c => c != ' ')).length
    let newHashes := min (hashes + inc) 6
    '\n' :: (List.replicate newHashes '#' ++ line.drop hashes ++ ['\n', '\n'])
  else line ++ ['\n']

/-- `ExportManager._adjust_headers` on character lists. -/
def adjust_headers_chars (content : List Char) (inc : Nat) : List Char :=
  ((split_lines content).map (adjust_line inc)).flatten

/-- `ExportManager._adjust_headers`. -/
def adjust_headers (s : String) (inc : Nat) : String :=
  String.mk (adjust_headers_chars s.data inc)

/-! ### `DatabaseManager` (`crawler_to_md/database_manager.py`)

The SQLite tables are modelled as lists of rows in insertion order; both
tables have the URL as primary key, so the `INSERT OR IGNORE` /
`ON CONFLICT(url) DO UPDATE` statements become presence tests plus map or
append.  `retry_count INTEGER DEFAULT 0` makes every freshly inserted link
row carry `retry_count = 0`. -/

/-- A row of the `pages` table: `url TEXT PRIMARY KEY, content TEXT,
metadata TEXT` (`content` is NULL for failed scrapes). -/
structure PageRow where
  url : String
  content : Option String
  metadata : String
deriving DecidableEq

/-- A row of the `links` table: `url TEXT PRIMARY KEY, visited BOOLEAN,
retry_count INTEGER DEFAULT 0`. -/
structure LinkRow where
  url : String
  visited : Bool
  retry_count : Nat
deriving DecidableEq

/-- The database state: both tables. -/
structure DB where
  pages : List PageRow
  links : List LinkRow
deriving DecidableEq

/-- One `INSERT INTO pages ... ON CONFLICT(url) DO UPDATE` row execution. -/
def upsert_row (rows : List PageRow) (r : String × Option String × String) :
    List PageRow :=
  if rows.any (fun p => p.url == r.1) then
    rows.map (fun p => if p.url == r.1 then ⟨p.url, r.2.1, r.2.2⟩ else p)
  else rows ++ [⟨r.1, r.2.1, r.2.2⟩]

/-- `DatabaseManager.upsert_pages`: `executemany` of the upsert statement in
list order (the `if not pages: return` guard is the identity fold on `[]`). -/
def upsert_pages_fn (db : DB) (rows : List (String × Option String × String)) : DB :=
  { db with pages := rows.foldl upsert_row db.pages }

/-- `DatabaseManager.insert_page`: `INSERT OR IGNORE INTO pages`. -/
def insert_page (db : DB) (url : String) (content : Option String)
    (metadata : String) : DB :=
  if db.pages.any (fun p => p.url == url) then db
  else { db with pages := db.pages ++ [⟨url, content, metadata⟩] }

/-- `DatabaseManager.upsert_page`, which delegates to `upsert_pages`. -/
def upsert_page (db : DB) (url : String) (content : Option String)
    (metadata : String) : DB :=
  upsert_pages_fn db [(url, content, metadata)]

/-- `DatabaseManager.insert_links`: `INSERT OR IGNORE INTO links (url,
visited)`, one row per URL, `retry_count` filled by its DEFAULT 0. -/
def insert_links_fn (db : DB) (urls : List String) (visited : Bool) : DB :=
  { db with
    links := urls.foldl
      (fun rows u =>
        if rows.any (fun l => l.url == u) then rows else rows ++ [⟨u, visited, 0⟩])
      db.links }

/-- `DatabaseManager.mark_links_visited`: `UPDATE links SET visited = TRUE
WHERE url = ?` for each URL. -/
def mark_links_visited_fn (db : DB) (urls : List String) : DB :=
  { db with
    links := urls.foldl
      (fun rows u =>
        rows.map (fun l => if l.url == u then { l with visited := true } else l))
      db.links }

/-- `DatabaseManager.mark_link_unvisited`: `UPDATE links SET visited = FALSE
WHERE url = ?`. -/
def mark_link_unvisited_fn (db : DB) (url : String) : DB :=
  { db with
    links := db.links.map
      (fun l => if l.url == url then { l with visited := false } else l) }

/-- The retry-increment sub-operation of `commit_crawl_batch`:
`UPDATE links SET retry_count = retry_count + 1 WHERE url = ?`. -/
def retry_increment_fn (db : DB) (urls : List String) : DB :=
  { db with
    links := urls.foldl
      (fun rows u =>
        rows.map (fun l =>
          if l.url == u then { l with retry_count := l.retry_count + 1 } else l))
      db.links }

/-- The retry-reset sub-operation of `commit_crawl_batch`:
`UPDATE links SET retry_count = 0 WHERE url = ?`. -/
def retry_reset_fn (db : DB) (urls : List String) : DB :=
  { db with
    links := urls.foldl
      (fun rows u =>
        rows.map (fun l => if l.url == u then { l with retry_count := 0 } else l))
      db.links }

/-- `DatabaseManager.commit_crawl_batch` (database_manager.py, lines
319-371): inside one `with self.conn` transaction, upsert the pages, mark
the visited links, increment the retry counts, reset the retry counts, each
guarded by an emptiness test. -/
def commit_crawl_batch (db : DB) (pages_upsert : List (String × Option String × String))
    (visited_updates retry_increments retry_resets : List String) : DB :=
  let db1 := if pages_upsert.isEmpty then db else upsert_pages_fn db pages_upsert
  let db2 := if visited_updates.isEmpty then db1 else mark_links_visited_fn db1 visited_updates
  let db3 := if retry_increments.isEmpty then db2 else retry_increment_fn db2 retry_increments
  if retry_resets.isEmpty then db3 else retry_reset_fn db3 retry_resets

/-- `DatabaseManager.get_failed_page_urls`: `SELECT url FROM pages WHERE
content IS NULL`, in table order. -/
def get_failed_page_urls (db : DB) : List String :=
  (db.pages.filter (fun p => p.content.isNone)).map (fun p => p.url)

/-- `DatabaseManager.get_retriable_failed_urls`: pages with NULL content
joined with links having `retry_count < max_retries`. -/
def get_retriable_failed_urls (db : DB) (max_retries : Nat) : List String :=
  ((db.pages.filter (fun p => p.content.isNone)).filter
    (fun p => db.links.any
      (fun l => l.url == p.url && decide (l.retry_count < max_retries)))).map
    (fun p => p.url)

/-- `DatabaseManager.get_unvisited_links`: `SELECT url FROM links WHERE
visited = FALSE`, with optional `LIMIT`. -/
def get_unvisited_links (db : DB) (limit : Option Nat) : List String :=
  let l := (db.links.filter (fun r => !r.visited)).map (fun r => r.url)
  match limit with
  | none => l
  | some n => l.take n

/-- `SELECT url, content, metadata FROM pages` row lookup by primary key. -/
def find_page (db : DB) (url : String) : Option PageRow :=
  db.pages.find? (fun p => p.url == url)

/-- `links` row lookup by primary key. -/
def find_link (db : DB) (url : String) : Option LinkRow :=
  db.links.find? (fun l => l.url == url)

/-! ### Transactional model of `commit_crawl_batch` (claim C2)

`commit_crawl_batch` runs its four `executemany` statements inside one
`with self.conn:` block; SQLite commits on normal exit and rolls the whole
transaction back when any statement raises.  The failure environment is
modelled by an oracle saying which sub-operation raises; rollback returns
the original state. -/

/-- The four sub-operations of `commit_crawl_batch`. -/
inductive SubOp
  | upserts
  | visits
  | increments
  | resets
deriving DecidableEq

/-- The body of the `with self.conn:` block under a failure oracle: each
sub-operation runs only when its argument list is non-empty (the source's
`if` guards) and raises when the oracle says so. -/
def run_crawl_batch (fails : SubOp → Bool) (db : DB)
    (pages_upsert : List (String × Option String × String))
    (visited_updates retry_increments retry_resets : List String) :
    Except Unit DB :=
  if !pages_upsert.isEmpty && fails SubOp.upserts then Except.error () else
  let db1 := if pages_upsert.isEmpty then db else upsert_pages_fn db pages_upsert
  if !visited_updates.isEmpty && fails SubOp.visits then Except.error () else
  let db2 := if visited_updates.isEmpty then db1
    else mark_links_visited_fn db1 visited_updates
  if !retry_increments.isEmpty && fails SubOp.increments then Except.error () else
  let db3 := if retry_increments.isEmpty then db2
    else retry_increment_fn db2 retry_increments
  if !retry_resets.isEmpty && fails SubOp.resets then Except.error () else
  Except.ok (if retry_resets.isEmpty then db3 else retry_reset_fn db3 retry_resets)

/-- `commit_crawl_batch` as observed through the transaction: commit on
success, rollback to the original state on any raise. -/
def commit_crawl_batch_tx (fails : SubOp → Bool) (db : DB)
    (pages_upsert : List (String × Option String × String))
    (visited_updates retry_increments retry_resets : List String) : DB :=
  match run_crawl_batch fails db pages_upsert visited_updates
      retry_increments retry_resets with
  | Except.ok db' => db'
  | Except.error _ => db

/-! ### `Scraper.start_scraping` (`crawler_to_md/scraper.py`, lines 358-558)

The HTTP transport, URL utilities, link extraction, and the HTML→Markdown
scrape are the out-of-scope collaborators; they appear as oracle fields of
`ScraperM`.  Database effects are recorded as a trace of `DBOp` values in
call order and interpreted against the `DB` state by `apply_db_op`, so both
"which persistence calls happen" and "what state results" are provable. -/

/-- Result of `self.session.get(url, ...)`: either a response with status
code, `content-type` header and body text, or a raised `RequestException`
(carrying the exception class name and message). -/
inductive FetchResult
  | ok (status : Nat) (contentType : String) (html : String)
  | exc (excName : String) (excMessage : String)
deriving DecidableEq

/-- Oracle bundle for one `Scraper` instance: `utils.normalize_url`
(`none` models a raised `ValueError`), `is_valid_link` on a normalized URL,
the HTTP GET, `_scrape_page_from_soup` (`none` models a failed scrape,
otherwise Markdown content and the `json.dumps`-ed metadata), and
`_extract_links_from_soup` (its set of links as a duplicate-free list). -/
structure ScraperM where
  normalize_url : String → Option String
  valid_link : String → Bool
  fetch : String → FetchResult
  scrape : String → String → Option (String × String)
  extract_links : String → String → List String

/-- `Scraper._failed_scrape_metadata`: `json.dumps` of the metadata dict in
insertion order (`scrape_status`, then the optional `error_type` and
`error_message`). -/
def failed_scrape_metadata (status : String) (errorType errorMessage : Option String) :
    String :=
  ("\x7b\"scrape_status\": \"") ++ status ++ ("\"") ++
    (match errorType with
     | some t => (", \"error_type\": \"") ++ t ++ ("\"")
     | none => ("")) ++
    (match errorMessage with
     | some msg => (", \"error_message\": \"") ++ msg ++ ("\"")
     | none => ("")) ++ ("\x7d")

/-- The per-batch accumulators of the frontier loop:
`links_to_mark_visited`, `pages_to_upsert`, and `all_discovered_links`
(a Python `set`, modelled as a first-occurrence-ordered duplicate-free
list). -/
structure BatchAcc where
  links_to_mark_visited : List String
  pages_to_upsert : List (String × Option String × String)
  all_discovered_links : List String
deriving DecidableEq

/-- `all_discovered_links.update(new_links)`. -/
def set_update (cur new : List String) : List String :=
  new.foldl (fun acc u => if acc.contains u then acc else acc ++ [u]) cur

/-- The body of `for link in unvisited_links:` for one raw frontier URL
(scraper.py, lines 444-540): record it for the visited flip, normalize and
validate (skips on failure), fetch (a `RequestException` upserts a NULL
failure row), skip non-200 or non-HTML responses, otherwise extract links
(when `discover`) and scrape, recording either a failure row
(`NoContentError`) or the scraped page. -/
def process_link (S : ScraperM) (discover : Bool) (acc : BatchAcc)
    (rawUrl : String) : BatchAcc :=
  let acc := { acc with links_to_mark_visited := acc.links_to_mark_visited ++ [rawUrl] }
  match S.normalize_url rawUrl with
  | none => acc
  | some url =>
    if !S.valid_link url then acc
    else
      match S.fetch url with
      | FetchResult.exc name msg =>
        { acc with
          pages_to_upsert := acc.pages_to_upsert ++
            [(url, none, failed_scrape_metadata ("failed") (some name) (some msg))] }
      | FetchResult.ok status ctype html =>
        if status != 200
            || !(list_contains_sub (("text/html").data) (py_lower ctype.data)) then
          acc
        else
          let acc := if discover then
              { acc with
                all_discovered_links :=
                  set_update acc.all_discovered_links (S.extract_links html url) }
            else acc
          match S.scrape html url with
          | none =>
            { acc with
              pages_to_upsert := acc.pages_to_upsert ++
                [(url, none, failed_scrape_metadata ("failed") (some ("NoContentError"))
                  (some ("No content extracted")))] }
          | some (content, metadataJson) =>
            { acc with pages_to_upsert := acc.pages_to_upsert ++ [(url, some content, metadataJson)] }

/-- A recorded call into `DatabaseManager`. -/
inductive DBOp
  | upsertPagesOp (rows : List (String × Option String × String))
  | insertLinksOp (urls : List String)
  | markLinksVisitedOp (urls : List String)
  | insertLinkOp (url : String)
  | markLinkUnvisitedOp (url : String)
  | commitCrawlBatchOp (pages_upsert : List (String × Option String × String))
      (visited_updates retry_increments retry_resets : List String)
deriving DecidableEq

/-- Interpretation of a recorded call against the store. -/
def apply_db_op (db : DB) : DBOp → DB
  | DBOp.upsertPagesOp rows => upsert_pages_fn db rows
  | DBOp.insertLinksOp urls => insert_links_fn db urls false
  | DBOp.markLinksVisitedOp urls => mark_links_visited_fn db urls
  | DBOp.insertLinkOp u => insert_links_fn db [u] false
  | DBOp.markLinkUnvisitedOp u => mark_link_unvisited_fn db u
  | DBOp.commitCrawlBatchOp p v i r => commit_crawl_batch db p v i r

def apply_db_ops (db : DB) (ops : List DBOp) : DB := ops.foldl apply_db_op db

/-- Whether a recorded call is `commit_crawl_batch`. -/
def is_commit_op : DBOp → Bool
  | DBOp.commitCrawlBatchOp _ _ _ _ => true
  | _ => false

/-- The batch-end persistence of the frontier loop (scraper.py, lines
542-555): `upsert_pages` when any page was collected, `insert_links` of the
discoveries (only when crawling without an explicit `urls_list`), and
`mark_links_visited` — three separate calls. -/
def batch_end_ops (discover : Bool) (acc : BatchAcc) : List DBOp :=
  (if acc.pages_to_upsert.isEmpty then [] else [DBOp.upsertPagesOp acc.pages_to_upsert]) ++
    (if discover && !acc.all_discovered_links.isEmpty then
      [DBOp.insertLinksOp acc.all_discovered_links]
     else []) ++
    (if acc.links_to_mark_visited.isEmpty then []
     else [DBOp.markLinksVisitedOp acc.links_to_mark_visited])

/-- One frontier batch: fold the per-URL processing over the batch, then the
batch-end persistence calls. -/
def batch_ops (S : ScraperM) (discover : Bool) (batch : List String) : List DBOp :=
  batch_end_ops discover (batch.foldl (process_link S discover) (BatchAcc.mk [] [] []))

/-- The seed phase of `start_scraping` (scraper.py, lines 368-396): with a
`urls_list`, normalize and validate each entry and `insert_link` the
surviving list; with a single `url`, normalize it (no validity check in the
source) and `insert_link` it. -/
def seed_ops (S : ScraperM) (url : Option String) (urlsList : List String) : List DBOp :=
  if !urlsList.isEmpty then
    [DBOp.insertLinksOp (urlsList.filterMap (fun ui =>
      match S.normalize_url ui with
      | none => none
      | some nu => if S.valid_link nu then some nu else none))]
  else
    match url with
    | none => []
    | some u =>
      match S.normalize_url u with
      | none => []
      | some nu => [DBOp.insertLinkOp nu]

/-- The auto-retry phase of `start_scraping` (scraper.py, lines 398-407):
for every URL of `get_failed_page_urls` that normalizes and validates,
`insert_link` it and mark it unvisited. -/
def requeue_ops (S : ScraperM) (db : DB) : List DBOp :=
  (get_failed_page_urls db).flatMap (fun fu =>
    match S.normalize_url fu with
    | none => []
    | some nu =>
      if S.valid_link nu then [DBOp.insertLinkOp nu, DBOp.markLinkUnvisitedOp nu]
      else [])

/-- The frontier loop (scraper.py, lines 425-555), fuelled: read a batch of
at most 200 unvisited links, stop on an empty batch, otherwise process the
batch, apply its persistence calls, and continue.  The fuel only bounds the
number of iterations; every claim below is evaluated on runs that reach the
empty-frontier exit within the given fuel. -/
def crawl_loop (S : ScraperM) (discover : Bool) : Nat → DB → DB × List DBOp
  | 0, db => (db, [])
  | Nat.succ fuel, db =>
    let batch := get_unvisited_links db (some 200)
    if batch.isEmpty then (db, [])
    else
      let ops := batch_ops S discover batch
      let next := crawl_loop S discover fuel (apply_db_ops db ops)
      (next.1, ops ++ next.2)

/-- `Scraper.start_scraping`: seed phase, auto-retry phase, then the
frontier loop; returns the final store and the full trace of database
calls. -/
def start_scraping (S : ScraperM) (url : Option String) (urlsList : List String)
    (db : DB) (fuel : Nat) : DB × List DBOp :=
  let sOps := seed_ops S url urlsList
  let db1 := apply_db_ops db sOps
  let rOps := requeue_ops S db1
  let db2 := apply_db_ops db1 rOps
  let res := crawl_loop S urlsList.isEmpty fuel db2
  (res.1, sOps ++ rOps ++ res.2)

/-- Concrete crawl oracle: every URL normalizes to itself and validates, the
GET returns status 200 with `text/html` content and the scrape yields
Markdown `MD` (this is the scenario of the repository's own test
`test_start_scraping_batch_db_calls`). -/
def oracle_ok : ScraperM :=
  { normalize_url := fun u => some u,
    valid_link := fun _ => true,
    fetch := fun _ => FetchResult.ok 200 ("text/html") ("H"),
    scrape := fun _ _ => some (("MD"), ("metaT")),
    extract_links := fun _ _ => [] }

def url_a : String := ("http://example.com/a")

def url_b : String := ("http://example.com/b")

def sample_url : String := ("http://example.com/x")

/-- A resumed store holding one previously failed page for `sample_url`
whose link row carries `visited = true` and `retry_count = 1`. -/
def store_retry1 : DB :=
  DB.mk [PageRow.mk sample_url none ("mf")] [LinkRow.mk sample_url true 1]

/-- A resumed store whose failed page has exhausted `max_retries = 3`. -/
def store_retry3 : DB :=
  DB.mk [PageRow.mk sample_url none ("mf")] [LinkRow.mk sample_url true 3]

/-- Oracle whose GET raises a `RequestException`. -/
def oracle_exc : ScraperM :=
  { oracle_ok with fetch := fun _ => FetchResult.exc ("ConnectionError") ("boom") }

/-- Oracle whose GET returns a retriable 5xx status with an HTML content
type. -/
def oracle_500 : ScraperM :=
  { oracle_ok with fetch := fun _ => FetchResult.ok 500 ("text/html") ("") }

/-! ### `ExportManager._cleanup_markdown`
(`crawler_to_md/export_manager.py`, lines 47-63): a `while "\n\n\n" in
content:` loop around `content.replace("\n\n\n", "\n\n")`. -/

/-- One `content.replace("\n\n\n", "\n\n")` pass: left-to-right,
non-overlapping. -/
def replace_three_newlines : List Char → List Char
  | [] => []
  | [c] => [c]
  | [c, d] => [c, d]
  | c :: d :: e :: rest =>
    if c = '\n' ∧ d = '\n' ∧ e = '\n' then '\n' :: '\n' :: replace_three_newlines rest
    else c :: replace_three_newlines (d :: e :: rest)

/-- Python `"\n\n\n" in content`. -/
def has_three_newlines : List Char → Bool
  | [] => false
  | [_] => false
  | [_, _] => false
  | c :: d :: e :: rest =>
    if c = '\n' ∧ d = '\n' ∧ e = '\n' then true
    else has_three_newlines (d :: e :: rest)

/-- The `while` loop, fuelled.  `cleanup_markdown` runs it with fuel
`l.length`, which `replace_three_newlines_lt` shows is always enough
(`cleanup_loop_clears` below). -/
def cleanup_loop : Nat → List Char → List Char
  | 0, l => l
  | Nat.succ n, l =>
    if has_three_newlines l then cleanup_loop n (replace_three_newlines l) else l

/-- `ExportManager._cleanup_markdown` on character lists. -/
def cleanup_markdown_chars (l : List Char) : List Char :=
  cleanup_loop l.length l

/-- `ExportManager._cleanup_markdown`. -/
def cleanup_markdown (s : String) : String :=
  String.mk (cleanup_markdown_chars s.data)

/-! ### Metadata handling and export (claim C10)
(`crawler_to_md/export_manager.py`, lines 148-249).

`json.loads` is a standard-library collaborator; it appears as an oracle
`loads : String → Except Unit Json` (`Except.error` models `TypeError` /
`json.JSONDecodeError`). -/

/-- Parsed JSON values as Python's `json.loads` produces them. -/
inductive Json
  | null
  | bool (b : Bool)
  | num (n : Int)
  | str (s : String)
  | arr (xs : List Json)
  | obj (kvs : List (String × Json))

/-- `ExportManager._safe_metadata_dict`: the parse result when it is a
dict, `\x7b\x7d` otherwise (non-dict parse or raised error). -/
def safe_metadata_dict (loads : String → Except Unit Json) (metadata : String) :
    List (String × Json) :=
  match loads metadata with
  | Except.ok (Json.obj kvs) => kvs
  | Except.ok _ => []
  | Except.error _ => []

/-- Whether `loads` fails to produce a dict on this metadata string. -/
def bad_parse (loads : String → Except Unit Json) (metadata : String) : Bool :=
  match loads metadata with
  | Except.ok (Json.obj _) => false
  | _ => true

/-- The `v is not None` test of the metadata filters. -/
def json_is_null : Json → Bool
  | Json.null => true
  | _ => false

/-- Python `str(value)` on a parsed JSON value, as interpolated into the
metadata comment.  Container rendering is abbreviated: the claims below only
exercise it through empty filtered dictionaries. -/
def py_str : Json → String
  | Json.null => ("None")
  | Json.bool true => ("True")
  | Json.bool false => ("False")
  | Json.num n => toString n
  | Json.str s => s
  | Json.arr _ => ("[...]")
  | Json.obj _ => ("dict")

/-- The `metadata_content` HTML comment block of
`ExportManager._concatenate_markdown` (lines 193-198). -/
def metadata_comment (url : String) (kvs : List (String × Json)) : String :=
  ("<!--\nURL: ") ++ url ++ ("\n") ++
    String.join (kvs.map (fun kv => kv.1 ++ (": ") ++ py_str kv.2 ++ ("\n"))) ++
    ("-->")

/-- The per-page part appended by `_concatenate_markdown` (lines 177-200):
`none` for a skipped NULL-content page. -/
def page_part (loads : String → Except Unit Json) (minify : Bool)
    (row : String × Option String × String) : Option String :=
  match row.2.1 with
  | none => none
  | some c =>
    let adjusted := adjust_headers c 1
    if minify then some (("\n") ++ adjusted)
    else
      let filtered := (safe_metadata_dict loads row.2.2).filter
        (fun kv => !(json_is_null kv.2))
      some (("\n") ++ metadata_comment row.1 filtered ++ ("\n\n") ++ adjusted ++ ("\n---"))

/-- `ExportManager._concatenate_markdown`: title header, page parts,
newline collapse, optional minification. -/
def concatenate_markdown (loads : String → Except Unit Json) (title : String)
    (minify : Bool) (pages : List (String × Option String × String)) : String :=
  let parts := (("# ") ++ title ++ ("\n")) :: pages.filterMap (page_part loads minify)
  let final := cleanup_markdown (String.join parts)
  if minify then minify_markdown final else final

/-- The list `data_to_export` built by `ExportManager.export_to_json`
(lines 229-246): NULL-content pages skipped, content newline-collapsed,
metadata re-parsed and stripped of null values. -/
def export_to_json_data (loads : String → Except Unit Json)
    (pages : List (String × Option String × String)) :
    List (String × String × List (String × Json)) :=
  pages.filterMap (fun row =>
    match row.2.1 with
    | none => none
    | some c =>
      some (row.1, cleanup_markdown c,
        (safe_metadata_dict loads row.2.2).filter (fun kv => !(json_is_null kv.2))))

/-! ## Theorems -/

/-! ### Helper lemmas for the minifier theorems -/

theorem takeWhile_dropWhile_nil (p : α → Bool) (l : List α) :
    (l.dropWhile p).takeWhile p = [] := by
  induction l with
  | nil => rfl
  | cons a t ih =>
    by_cases h : p a = true
    · simpa [List.dropWhile, h] using ih
    · simp [List.dropWhile, List.takeWhile, h]

theorem spaces_prefix_iff (r : List Char) :
    (([' ', ' '] : List Char).isPrefixOf r
      && !(([' ', ' ', ' '] : List Char).isPrefixOf r)) = true ↔
    (r.takeWhile (fun c => c == ' ')).length = 2 := by
  match r with
  | [] => simp [List.isPrefixOf, List.takeWhile]
  | [a] =>
    by_cases ha : a = ' '
    · subst ha; decide
    · simp [List.isPrefixOf, List.takeWhile_cons,
        beq_eq_false_iff_ne.mpr ha, beq_eq_false_iff_ne.mpr (Ne.symm ha)]
  | a :: b :: t =>
    by_cases ha : a = ' '
    · subst ha
      by_cases hb : b = ' '
      · subst hb
        match t with
        | [] => decide
        | c :: t' =>
          by_cases hc : c = ' '
          · subst hc
            simp [List.isPrefixOf, List.takeWhile_cons]
          · simp [List.isPrefixOf, List.takeWhile_cons,
              beq_eq_false_iff_ne.mpr hc, beq_eq_false_iff_ne.mpr (Ne.symm hc)]
      · simp [List.isPrefixOf, List.takeWhile_cons,
          beq_eq_false_iff_ne.mpr hb, beq_eq_false_iff_ne.mpr (Ne.symm hb)]
    · simp [List.isPrefixOf, List.takeWhile_cons,
        beq_eq_false_iff_ne.mpr ha, beq_eq_false_iff_ne.mpr (Ne.symm ha)]

theorem normalize_trailing_cond (l : List Char) :
    (py_ends_with l [' ', ' '] && !(py_ends_with l [' ', ' ', ' '])) = true ↔
    trailing_space_count l = 2 := by
  unfold py_ends_with trailing_space_count
  simpa using spaces_prefix_iff l.reverse

/-- C7: outside a fence, after comment stripping, the minifier keeps a line
verbatim exactly when it ends with exactly two trailing spaces; any other
line has all trailing spaces and tabs removed (one space, three spaces, and
a trailing tab all collapse to nothing). -/
theorem minify_trailing_whitespace_rule (l : List Char) :
    (trailing_space_count l = 2 → normalize_trailing l = l) ∧
    (trailing_space_count l ≠ 2 →
      normalize_trailing l = rstrip_space_tab l ∧
      (normalize_trailing l).reverse.takeWhile (fun c => c == ' ' || c == '\t') = []) := by
  constructor
  · intro h
    have hc := (normalize_trailing_cond l).mpr h
    simp [normalize_trailing, hc]
  · intro h
    have hc : (py_ends_with l [' ', ' '] && !(py_ends_with l [' ', ' ', ' '])) = false := by
      cases hcond : (py_ends_with l [' ', ' '] && !(py_ends_with l [' ', ' ', ' ']))
      · rfl
      · exact absurd ((normalize_trailing_cond l).mp hcond) h
    have hres : normalize_trailing l = rstrip_space_tab l := by
      simp [normalize_trailing, hc]
    refine ⟨hres, ?_⟩
    rw [hres]
    unfold rstrip_space_tab
    rw [List.reverse_reverse]
    exact takeWhile_dropWhile_nil _ _

/-- Witness for `minify_trailing_whitespace_rule`: two trailing spaces are
kept, while three trailing spaces and a trailing tab are stripped. -/
theorem minify_trailing_whitespace_rule_witness :
    normalize_trailing (("ab  ").data) = ("ab  ").data ∧
    normalize_trailing (("ab   ").data) = ("ab").data ∧
    normalize_trailing (("ab\t").data) = ("ab").data :=
  ⟨(minify_trailing_whitespace_rule (("ab  ").data)).1 (by decide),
   (((minify_trailing_whitespace_rule (("ab   ").data)).2 (by decide)).1).trans (by decide),
   (((minify_trailing_whitespace_rule (("ab\t").data)).2 (by decide)).1).trans (by decide)⟩

/-- C6: the Markdown minifier is not idempotent.  On the input consisting of
a single opening code fence followed by a newline, each application appends a
further newline: `minify("```\n") = "```\n\n"` while
`minify("```\n\n") = "```\n\n\n"` (the re-appended trailing newline falls
inside the still-open fence and is preserved verbatim by the next pass). -/
theorem minify_markdown_not_idempotent :
    minify_markdown ("```\n") = ("```\n\n") ∧
    minify_markdown (minify_markdown ("```\n")) = ("```\n\n\n") ∧
    minify_markdown (minify_markdown ("```\n")) ≠ minify_markdown ("```\n") := by
  refine ⟨by decide, by decide, by decide⟩

/-! ### Header demotion (claim C8) -/

theorem takeWhile_hashes (k : Nat) (rest : List Char) :
    (List.replicate k '#' ++ ' ' :: rest).takeWhile (fun c => c != ' ') =
      List.replicate k '#' := by
  induction k with
  | zero => simp [List.takeWhile_cons]
  | succ n ih => simp [List.replicate_succ, List.takeWhile_cons, ih]

theorem head_hashes (k : Nat) (rest : List Char) (hk : 1 ≤ k) :
    (List.replicate k '#' ++ ' ' :: rest).head? = some '#' := by
  match k, hk with
  | Nat.succ n, _ => simp [List.replicate_succ]

/-- C8 counterexample: a line whose first token has seven hashes does not
pass through `_adjust_headers` unchanged — it is rewritten with the hash
count capped at six — and a `#`-prefixed line with no following space is
rewritten as well. -/
theorem adjust_headers_seven_hash_not_preserved :
    adjust_headers ("####### H7") 1 = ("\n###### H7\n\n") ∧
    adjust_headers ("####### H7") 1 ≠ ("####### H7\n") ∧
    list_contains_sub (("####### H7").data)
      ((adjust_headers ("# H1\n## H2\n###### H6\n####### H7") 1).data) = false ∧
    adjust_headers ("#abc") 1 ≠ ("#abc\n") := by
  refine ⟨by decide, by decide, by decide, by decide⟩

/-- C8 (amended): every line consisting of `k ≥ 1` hashes, a space, and a
remainder is rewritten by `_adjust_headers` to `min (k+1) 6` hashes with a
blank line inserted before and after (so `####### H7` becomes `###### H7`,
capped, rather than passing through unchanged), and every line not beginning
with `#` passes through unchanged (up to its line terminator). -/
theorem adjust_line_demotion (k : Nat) (rest line : List Char) (hk : 1 ≤ k)
    (hline : line.head? ≠ some '#') :
    adjust_line 1 (List.replicate k '#' ++ ' ' :: rest) =
      '\n' :: (List.replicate (min (k + 1) 6) '#' ++ ' ' :: rest ++ ['\n', '\n']) ∧
    adjust_line 1 line = line ++ ['\n'] := by
  constructor
  · have hh := head_hashes k rest hk
    have ht := takeWhile_hashes k rest
    have hd : (List.replicate k '#' ++ ' ' :: rest).drop k = ' ' :: rest := by
      have h2 := List.drop_left (List.replicate k '#') (' ' :: rest)
      rwa [List.length_replicate] at h2
    simp [adjust_line, hh, ht, hd]
  · have hc : (line.head? == some '#') = false := beq_eq_false_iff_ne.mpr hline
    simp [adjust_line, hc]

/-- Witness for `adjust_line_demotion` at `k = 7`: the seven-hash header is
capped to six hashes, and a line starting with `x` is unchanged. -/
theorem adjust_line_demotion_witness :
    adjust_line 1 (List.replicate 7 '#' ++ ' ' :: ("H7").data) =
      '\n' :: (List.replicate 6 '#' ++ ' ' :: ("H7").data ++ ['\n', '\n']) ∧
    adjust_line 1 (("x").data) = ("x").data ++ ['\n'] := by
  have h := adjust_line_demotion 7 (("H7").data) (("x").data) (by decide) (by decide)
  exact ⟨by simpa using h.1, h.2⟩

/-- C2: `commit_crawl_batch` is all-or-nothing.  The empty batch commits and
leaves the store unchanged whatever the failure environment; in general the
observable result is either the untouched store or the full sequential
application of all four sub-operations; any failing (guard-active)
sub-operation leaves both tables unchanged; and with no failures the result
is exactly the full application. -/
theorem commit_crawl_batch_atomic (fails : SubOp → Bool) (db : DB)
    (p : List (String × Option String × String)) (v i r : List String) :
    commit_crawl_batch_tx fails db [] [] [] [] = db ∧
    (commit_crawl_batch_tx fails db p v i r = db ∨
      commit_crawl_batch_tx fails db p v i r = commit_crawl_batch db p v i r) ∧
    ((¬p.isEmpty = true ∧ fails SubOp.upserts = true) ∨
      (¬v.isEmpty = true ∧ fails SubOp.visits = true) ∨
      (¬i.isEmpty = true ∧ fails SubOp.increments = true) ∨
      (¬r.isEmpty = true ∧ fails SubOp.resets = true) →
      commit_crawl_batch_tx fails db p v i r = db) ∧
    ((∀ s, fails s = false) →
      commit_crawl_batch_tx fails db p v i r = commit_crawl_batch db p v i r) := by
  refine ⟨by simp [commit_crawl_batch_tx, run_crawl_batch, commit_crawl_batch], ?_, ?_, ?_⟩
  · by_cases hp : p.isEmpty <;> by_cases hfp : fails SubOp.upserts <;>
      by_cases hv : v.isEmpty <;> by_cases hfv : fails SubOp.visits <;>
      by_cases hi : i.isEmpty <;> by_cases hfi : fails SubOp.increments <;>
      by_cases hr : r.isEmpty <;> by_cases hfr : fails SubOp.resets <;>
      simp [commit_crawl_batch_tx, run_crawl_batch, commit_crawl_batch,
        hp, hfp, hv, hfv, hi, hfi, hr, hfr]
  · intro h
    rcases h with ⟨h1, h2⟩ | ⟨h1, h2⟩ | ⟨h1, h2⟩ | ⟨h1, h2⟩ <;>
      [skip;
       by_cases hp : p.isEmpty <;> by_cases hfp : fails SubOp.upserts;
       (by_cases hp : p.isEmpty <;> by_cases hfp : fails SubOp.upserts <;>
         by_cases hv : v.isEmpty <;> by_cases hfv : fails SubOp.visits);
       (by_cases hp : p.isEmpty <;> by_cases hfp : fails SubOp.upserts <;>
         by_cases hv : v.isEmpty <;> by_cases hfv : fails SubOp.visits <;>
         by_cases hi : i.isEmpty <;> by_cases hfi : fails SubOp.increments)] <;>
      simp_all [commit_crawl_batch_tx, run_crawl_batch]
  · intro h
    simp [commit_crawl_batch_tx, run_crawl_batch, commit_crawl_batch, h]

/-- Witness for `commit_crawl_batch_atomic`: with a failure-free oracle and
a one-row batch over a one-link store, the transaction result is the full
application of the four sub-operations. -/
theorem commit_crawl_batch_atomic_witness :
    commit_crawl_batch_tx (fun _ => false)
        (DB.mk [] [LinkRow.mk ("http://a") false 1])
        [(("http://a"), some ("md"), ("m"))] [("http://a")] [] [("http://a")] =
      commit_crawl_batch (DB.mk [] [LinkRow.mk ("http://a") false 1])
        [(("http://a"), some ("md"), ("m"))] [("http://a")] [] [("http://a")] :=
  (commit_crawl_batch_atomic (fun _ => false)
    (DB.mk [] [LinkRow.mk ("http://a") false 1])
    [(("http://a"), some ("md"), ("m"))] [("http://a")] [] [("http://a")]).2.2.2
    (fun _ => rfl)

/-! ### `insert_page` versus `upsert_page` (claim C9) -/

theorem find?_upsert_map_hit (u : String) (c : Option String) (m : String)
    (rows : List PageRow) (h : rows.any (fun p => p.url == u) = true) :
    (rows.map (fun p => if p.url == u then ⟨p.url, c, m⟩ else p)).find?
      (fun p => p.url == u) = some ⟨u, c, m⟩ := by
  induction rows with
  | nil => simp at h
  | cons p t ih =>
    by_cases hp : p.url = u
    · simp [List.find?, hp]
    · have hp' : (p.url == u) = false := beq_eq_false_iff_ne.mpr hp
      have ht : t.any (fun p => p.url == u) = true := by
        simpa [List.any_cons, hp'] using h
      simpa [List.find?, hp'] using ih ht

theorem find?_upsert_map_miss (u v : String) (c : Option String) (m : String)
    (rows : List PageRow) (hvu : v ≠ u) :
    (rows.map (fun p => if p.url == u then ⟨p.url, c, m⟩ else p)).find?
      (fun p => p.url == v) = rows.find? (fun p => p.url == v) := by
  induction rows with
  | nil => rfl
  | cons p t ih =>
    rw [List.map_cons]
    by_cases hp : p.url = u
    · have h1 : (if p.url == u then (⟨p.url, c, m⟩ : PageRow) else p) = ⟨p.url, c, m⟩ := by
        simp [hp]
      have hvp : p.url ≠ v := fun hh => hvu (hh.symm.trans hp)
      rw [h1, List.find?_cons_of_neg, List.find?_cons_of_neg]
      · exact ih
      · simp [hvp]
      · simp [hvp]
    · have h1 : (if p.url == u then (⟨p.url, c, m⟩ : PageRow) else p) = p := by
        simp [hp]
      rw [h1]
      by_cases hv : p.url = v
      · rw [List.find?_cons_of_pos, List.find?_cons_of_pos] <;> simp [hv]
      · rw [List.find?_cons_of_neg, List.find?_cons_of_neg]
        · exact ih
        · simp [hv]
        · simp [hv]

theorem any_of_find?_isSome (u : String) (rows : List PageRow)
    (h : (rows.find? (fun p => p.url == u)).isSome = true) :
    rows.any (fun p => p.url == u) = true := by
  induction rows with
  | nil => simp [List.find?] at h
  | cons p t ih =>
    by_cases hp : (p.url == u) = true
    · simp [List.any_cons, hp]
    · have hp' : (p.url == u) = false := by
        cases hq : (p.url == u)
        · rfl
        · exact absurd hq hp
      simp only [List.find?, hp'] at h
      simp [List.any_cons, hp', ih h]

/-- C9: when the `pages` table already holds a row for `u`, `insert_page`
(`INSERT OR IGNORE`) leaves the database completely unchanged, whereas
`upsert_page` replaces that row's content and metadata while leaving every
other URL's row untouched. -/
theorem insert_page_ignores_upsert_page_replaces (db : DB) (u : String)
    (c c' : Option String) (m m' : String)
    (h : (find_page db u).isSome = true) :
    insert_page db u c m = db ∧
    find_page (upsert_page db u c' m') u = some ⟨u, c', m'⟩ ∧
    (∀ v, v ≠ u → find_page (upsert_page db u c' m') v = find_page db v) := by
  have hany : db.pages.any (fun p => p.url == u) = true :=
    any_of_find?_isSome u db.pages h
  refine ⟨?_, ?_, ?_⟩
  · simp [insert_page, hany]
  · show (upsert_row db.pages (u, c', m')).find? (fun p => p.url == u) = _
    simp only [upsert_row, hany, if_true]
    exact find?_upsert_map_hit u c' m' db.pages hany
  · intro v hvu
    show (upsert_row db.pages (u, c', m')).find? (fun p => p.url == v) = _
    simp only [upsert_row, hany, if_true]
    exact find?_upsert_map_miss u v c' m' db.pages hvu

/-- Witness for `insert_page_ignores_upsert_page_replaces` on a concrete
one-row store. -/
theorem insert_page_ignores_upsert_page_replaces_witness :
    insert_page (DB.mk [PageRow.mk ("http://a") (some ("old")) ("m0")] [])
        ("http://a") (some ("new")) ("m1") =
      DB.mk [PageRow.mk ("http://a") (some ("old")) ("m0")] [] ∧
    find_page (upsert_page (DB.mk [PageRow.mk ("http://a") (some ("old")) ("m0")] [])
        ("http://a") (some ("new")) ("m1")) ("http://a") =
      some (PageRow.mk ("http://a") (some ("new")) ("m1")) :=
  ⟨(insert_page_ignores_upsert_page_replaces
      (DB.mk [PageRow.mk ("http://a") (some ("old")) ("m0")] [])
      ("http://a") (some ("new")) (some ("new")) ("m1") ("m1") (by decide)).1,
   (insert_page_ignores_upsert_page_replaces
      (DB.mk [PageRow.mk ("http://a") (some ("old")) ("m0")] [])
      ("http://a") (some ("new")) (some ("new")) ("m1") ("m1") (by decide)).2.1⟩

/-! ### Crawl-engine claims -/

theorem batch_end_ops_no_commit (d : Bool) (acc : BatchAcc) :
    (batch_end_ops d acc).all (fun op => !is_commit_op op) = true := by
  by_cases h1 : acc.pages_to_upsert.isEmpty <;>
    by_cases h2 : (d && !acc.all_discovered_links.isEmpty) = true <;>
    by_cases h3 : acc.links_to_mark_visited.isEmpty <;>
    simp [batch_end_ops, h1, h2, h3, is_commit_op]

theorem batch_ops_no_commit (S : ScraperM) (d : Bool) (batch : List String) :
    (batch_ops S d batch).all (fun op => !is_commit_op op) = true :=
  batch_end_ops_no_commit d _

theorem requeue_ops_no_commit (S : ScraperM) (db : DB) :
    (requeue_ops S db).all (fun op => !is_commit_op op) = true := by
  unfold requeue_ops
  induction get_failed_page_urls db with
  | nil => rfl
  | cons u t ih =>
    rw [List.flatMap_cons, List.all_append, ih, Bool.and_true]
    cases hn : S.normalize_url u with
    | none => rfl
    | some nu =>
      dsimp only
      by_cases hv : S.valid_link nu = true
      · simp [hv, is_commit_op]
      · simp [hv]

theorem seed_ops_no_commit (S : ScraperM) (url : Option String)
    (urlsList : List String) :
    (seed_ops S url urlsList).all (fun op => !is_commit_op op) = true := by
  unfold seed_ops
  by_cases h : urlsList.isEmpty
  · simp only [h, Bool.not_true, Bool.false_eq_true, if_false]
    cases url with
    | none => rfl
    | some u =>
      dsimp only
      cases hn : S.normalize_url u with
      | none => rfl
      | some nu => rfl
  · simp [h, is_commit_op]

theorem crawl_loop_no_commit (S : ScraperM) (d : Bool) (fuel : Nat) (db : DB) :
    ((crawl_loop S d fuel db).2).all (fun op => !is_commit_op op) = true := by
  induction fuel generalizing db with
  | zero => rfl
  | succ n ih =>
    show ((if (get_unvisited_links db (some 200)).isEmpty then _ else _ : DB × List DBOp).2).all _ = true
    by_cases hb : (get_unvisited_links db (some 200)).isEmpty
    · simp [crawl_loop, hb]
    · simp [crawl_loop, hb, List.all_append, batch_ops_no_commit, ih]

/-- C1: the frontier loop never persists through `commit_crawl_batch`.  No
trace of `start_scraping` — over any oracle, seeds, store and fuel —
contains a `commit_crawl_batch` call; instead, a concrete two-URL batch ends
in the separate `upsert_pages` and `mark_links_visited` calls. -/
theorem start_scraping_never_calls_commit_crawl_batch :
    (∀ (S : ScraperM) (url : Option String) (urlsList : List String)
      (db : DB) (fuel : Nat),
      ((start_scraping S url urlsList db fuel).2).all
        (fun op => !is_commit_op op) = true) ∧
    batch_ops oracle_ok true [url_a, url_b] =
      [DBOp.upsertPagesOp [(url_a, some ("MD"), ("metaT")),
        (url_b, some ("MD"), ("metaT"))],
       DBOp.markLinksVisitedOp [url_a, url_b]] := by
  constructor
  · intro S url urlsList db fuel
    unfold start_scraping
    simp only [List.all_append]
    refine ((seed_ops_no_commit S url urlsList).symm ▸ ?_)
    simp [seed_ops_no_commit, requeue_ops_no_commit, crawl_loop_no_commit]
  · decide

/-- C3: retry accounting is not maintained by the engine.  Fresh links do
start at `retry_count = 0`; but on a resumed store where `sample_url` failed
earlier with `retry_count = 1`, a crawl run that scrapes it successfully
leaves `retry_count = 1` instead of resetting it to 0, and the batch trace
of a run whose fetch raises contains only the failure-page upsert and the
visited flip — no retry increment ever happens. -/
theorem retry_accounting_not_maintained :
    (insert_links_fn (DB.mk [] []) [sample_url] false).links =
      [LinkRow.mk sample_url false 0] ∧
    find_page (start_scraping oracle_ok none [] store_retry1 3).1 sample_url =
      some (PageRow.mk sample_url (some ("MD")) ("metaT")) ∧
    find_link (start_scraping oracle_ok none [] store_retry1 3).1 sample_url =
      some (LinkRow.mk sample_url true 1) ∧
    batch_ops oracle_exc true [sample_url] =
      [DBOp.upsertPagesOp [(sample_url, none,
        failed_scrape_metadata ("failed") (some ("ConnectionError")) (some ("boom")))],
       DBOp.markLinksVisitedOp [sample_url]] := by
  refine ⟨by decide, by decide, by decide, by decide⟩

/-- C4: the retry-requeue phase ignores the retry ceiling.  On a store whose
failed URL has `retry_count = 3` (exhausted for `max_retries = 3`),
`get_retriable_failed_urls 3` correctly returns nothing, yet the engine's
requeue phase — driven by `get_failed_page_urls` with no `max_retries` —
re-inserts the URL, marks it unvisited, and a subsequent run re-attempts and
re-scrapes it. -/
theorem exhausted_retries_are_requeued :
    get_retriable_failed_urls store_retry3 3 = [] ∧
    requeue_ops oracle_ok store_retry3 =
      [DBOp.insertLinkOp sample_url, DBOp.markLinkUnvisitedOp sample_url] ∧
    find_page (start_scraping oracle_ok none [] store_retry3 2).1 sample_url =
      some (PageRow.mk sample_url (some ("MD")) ("metaT")) ∧
    find_link (start_scraping oracle_ok none [] store_retry3 2).1 sample_url =
      some (LinkRow.mk sample_url true 3) := by
  refine ⟨by decide, by decide, by decide, by decide⟩

/-- C5: a retriable 5xx response is silently skipped.  Processing a frontier
URL whose GET returns status 500 (`text/html`) only records the visited
flip: no NULL-content failure row is collected and the batch trace contains
only `mark_links_visited` — unlike the network-exception path, which does
upsert a failure row (and neither path touches `retry_count`). -/
theorem retriable_status_not_recorded :
    process_link oracle_500 true (BatchAcc.mk [] [] []) sample_url =
      BatchAcc.mk [sample_url] [] [] ∧
    batch_ops oracle_500 true [sample_url] =
      [DBOp.markLinksVisitedOp [sample_url]] ∧
    (process_link oracle_exc true (BatchAcc.mk [] [] []) sample_url).pages_to_upsert =
      [(sample_url, none,
        failed_scrape_metadata ("failed") (some ("ConnectionError")) (some ("boom")))] := by
  refine ⟨by decide, by decide, by decide⟩

theorem replace_three_newlines_le : ∀ l : List Char,
    (replace_three_newlines l).length ≤ l.length
  | [] => by simp [replace_three_newlines]
  | [c] => by simp [replace_three_newlines]
  | [c, d] => by simp [replace_three_newlines]
  | c :: d :: e :: rest => by
    by_cases h : c = '\n' ∧ d = '\n' ∧ e = '\n'
    · have ih := replace_three_newlines_le rest
      simp [replace_three_newlines, h]
      omega
    · have ih := replace_three_newlines_le (d :: e :: rest)
      simp [replace_three_newlines, h] at *
      omega

theorem replace_three_newlines_lt : ∀ l : List Char,
    has_three_newlines l = true → (replace_three_newlines l).length < l.length
  | [], hh => by simp [has_three_newlines] at hh
  | [c], hh => by simp [has_three_newlines] at hh
  | [c, d], hh => by simp [has_three_newlines] at hh
  | c :: d :: e :: rest, hh => by
    by_cases h : c = '\n' ∧ d = '\n' ∧ e = '\n'
    · have := replace_three_newlines_le rest
      simp [replace_three_newlines, h]
      omega
    · have ih := replace_three_newlines_lt (d :: e :: rest)
        (by simpa [has_three_newlines, h] using hh)
      simp [replace_three_newlines, h] at *
      omega

/-- With fuel at least the input length the loop reaches its exit condition:
no `"\n\n\n"` remains, exactly as the source's unbounded `while` loop. -/
theorem cleanup_loop_clears : ∀ (n : Nat) (l : List Char), l.length ≤ n →
    has_three_newlines (cleanup_loop n l) = false
  | 0, l, h => by
    interval_cases hl : l.length
    cases l with
    | nil => rfl
    | cons c t => simp at hl
  | Nat.succ n, l, h => by
    by_cases hh : has_three_newlines l = true
    · have hlt := replace_three_newlines_lt l hh
      have : (replace_three_newlines l).length ≤ n := by omega
      simpa [cleanup_loop, hh] using cleanup_loop_clears n _ this
    · have hh' : has_three_newlines l = false := by
        cases hq : has_three_newlines l
        · rfl
        · exact absurd hq hh
      simp [cleanup_loop, hh']

theorem safe_metadata_dict_of_bad (loads : String → Except Unit Json)
    (m : String) (h : bad_parse loads m = true) :
    safe_metadata_dict loads m = [] := by
  unfold bad_parse at h
  unfold safe_metadata_dict
  match hm : loads m with
  | Except.ok (Json.obj kvs) => rw [hm] at h; simp at h
  | Except.ok Json.null => rfl
  | Except.ok (Json.bool b) => rfl
  | Except.ok (Json.num n) => rfl
  | Except.ok (Json.str s) => rfl
  | Except.ok (Json.arr xs) => rfl
  | Except.error e => rfl

theorem page_part_metadata_independent (loads : String → Except Unit Json)
    (minify : Bool) (u : String) (c : Option String) (m m' : String)
    (hm : bad_parse loads m = true) (hm' : bad_parse loads m' = true) :
    page_part loads minify (u, c, m) = page_part loads minify (u, c, m') := by
  cases c with
  | none => rfl
  | some content =>
    unfold page_part
    simp only [safe_metadata_dict_of_bad loads m hm,
      safe_metadata_dict_of_bad loads m' hm']

/-- C10: pages whose stored metadata does not parse as a JSON object are
treated as carrying an empty dictionary, and both exports still complete.
Every entry `export_to_json` produces for such pages has an empty filtered
metadata dictionary, and the concatenated Markdown is insensitive to the
unparsable metadata strings (two stores agreeing on URLs and contents
produce identical output). -/
theorem unparsable_metadata_treated_as_empty
    (loads : String → Except Unit Json) (title : String) (minify : Bool)
    (pages pages' : List (String × Option String × String))
    (hsim : pages.map (fun r => (r.1, r.2.1)) = pages'.map (fun r => (r.1, r.2.1)))
    (hbad : ∀ r ∈ pages, bad_parse loads r.2.2 = true)
    (hbad' : ∀ r ∈ pages', bad_parse loads r.2.2 = true) :
    (∀ e ∈ export_to_json_data loads pages, e.2.2 = ([] : List (String × Json))) ∧
    concatenate_markdown loads title minify pages =
      concatenate_markdown loads title minify pages' := by
  constructor
  · intro e he
    unfold export_to_json_data at he
    obtain ⟨row, hrow, hmap⟩ := List.mem_filterMap.mp he
    cases hc : row.2.1 with
    | none => rw [hc] at hmap; exact absurd hmap (by simp)
    | some c =>
      rw [hc] at hmap
      simp only [Option.some.injEq] at hmap
      rw [← hmap]
      simp [safe_metadata_dict_of_bad loads row.2.2 (hbad row hrow)]
  · unfold concatenate_markdown
    have hparts : pages.filterMap (page_part loads minify) =
        pages'.filterMap (page_part loads minify) := by
      induction pages generalizing pages' with
      | nil =>
        cases pages' with
        | nil => rfl
        | cons r' t' => simp at hsim
      | cons r t ih =>
        cases pages' with
        | nil => simp at hsim
        | cons r' t' =>
          simp only [List.map_cons, List.cons.injEq, Prod.mk.injEq] at hsim
          obtain ⟨⟨hu, hc⟩, htail⟩ := hsim
          have hhead : page_part loads minify r = page_part loads minify r' := by
            have h1 : page_part loads minify r =
                page_part loads minify (r.1, r.2.1, r.2.2) := by rfl
            have h2 : page_part loads minify r' =
                page_part loads minify (r'.1, r'.2.1, r'.2.2) := by rfl
            rw [h1, h2, hu, hc]
            exact page_part_metadata_independent loads minify r'.1 r'.2.1 r.2.2 r'.2.2
              (hbad r (by simp)) (hbad' r' (by simp))
          have hbadt : ∀ x ∈ t, bad_parse loads x.2.2 = true :=
            fun x hx => hbad x (List.mem_cons_of_mem r hx)
          have hbadt' : ∀ x ∈ t', bad_parse loads x.2.2 = true :=
            fun x hx => hbad' x (List.mem_cons_of_mem r' hx)
          rw [List.filterMap_cons, List.filterMap_cons, hhead,
            ih t' htail hbadt hbadt']
    rw [hparts]

/-- Witness for `unparsable_metadata_treated_as_empty`: a `loads` stub for
which the literal string `null` parses to JSON `null` and everything else
raises; both stores carry only unparsable metadata. -/
theorem unparsable_metadata_treated_as_empty_witness :
    (∀ e ∈ export_to_json_data
        (fun s => if s == ("null") then Except.ok Json.null else Except.error ())
        [(("http://a"), some ("# T"), ("null")), (("http://b"), none, ("oops"))],
      e.2.2 = ([] : List (String × Json))) ∧
    concatenate_markdown
        (fun s => if s == ("null") then Except.ok Json.null else Except.error ())
        ("Top") false
        [(("http://a"), some ("# T"), ("null")), (("http://b"), none, ("oops"))] =
      concatenate_markdown
        (fun s => if s == ("null") then Except.ok Json.null else Except.error ())
        ("Top") false
        [(("http://a"), some ("# T"), ("bad1")), (("http://b"), none, ("null"))] :=
  unparsable_metadata_treated_as_empty
    (fun s => if s == ("null") then Except.ok Json.null else Except.error ())
    ("Top") false
    [(("http://a"), some ("# T"), ("null")), (("http://b"), none, ("oops"))]
    [(("http://a"), some ("# T"), ("bad1")), (("http://b"), none, ("null"))]
    (by decide)
    (by intro r hr; fin_cases hr <;> decide)
    (by intro r hr; fin_cases hr <;> decide)

